import Mathlib

/-
  Shallow embedding of the openQuiz Game Session Engine
  (backend/services/game_service.go, backend/services/quiz_service.go Hub,
  backend/models).  The GORM database is modelled as flat tables, the Redis
  cache as an association list keyed by "game:" ++ pin, timers as fuel
  recursion on the time limit, and broadcasts as an explicit event list.
-/

set_option maxRecDepth 8000
set_option maxHeartbeats 1600000

namespace OpenQuiz

/-! Data model, mirroring backend/models. -/

/-- models.Option (named `ModelOption` because `Option` is taken in Lean). -/
structure ModelOption where
  id : Nat
  questionId : Nat
  text : String
  isCorrect : Bool
  order : Int
deriving DecidableEq, Repr

/-- models.Question. -/
structure Question where
  id : Nat
  quizId : Nat
  text : String
  timeLimit : Int
  order : Int
deriving DecidableEq, Repr

/-- models.Quiz (title/description omitted; only identity and ownership are read by the engine). -/
structure Quiz where
  id : Nat
  userId : Nat
deriving DecidableEq, Repr

/-- models.Game. -/
structure Game where
  id : Nat
  quizId : Nat
  pin : String
  status : String
deriving DecidableEq, Repr

/-- models.Player. -/
structure Player where
  id : Nat
  gameId : Nat
  name : String
  score : Int
deriving DecidableEq, Repr

/-- models.GameAnswer. -/
structure GameAnswer where
  gameId : Nat
  playerId : Nat
  questionId : Nat
  optionId : Nat
  isCorrect : Bool
  timeSpent : Int
  points : Int
deriving DecidableEq, Repr

/-- The relational store, as flat tables; GORM's Preload joins become filters
on the foreign keys. -/
structure DB where
  quizzes : List Quiz
  questions : List Question
  options : List ModelOption
  games : List Game
  players : List Player
  answers : List GameAnswer
deriving DecidableEq, Repr

/-! The Redis live snapshot (GameState and friends in game_service.go). -/

/-- GameOption: id and text only; IsCorrect is intentionally omitted during an
active quiz (comment in game_service.go). -/
structure GameOption where
  id : Nat
  text : String
deriving DecidableEq, Repr

/-- GameQuestion. -/
structure GameQuestion where
  id : Nat
  text : String
  timeLimit : Int
  options : List GameOption
  timeLeft : Int
deriving DecidableEq, Repr

/-- GamePlayer. -/
structure GamePlayer where
  id : Nat
  name : String
  score : Int
deriving DecidableEq, Repr

/-- GameState, the cached live snapshot. -/
structure GameState where
  gameId : Nat
  quizId : Nat
  pin : String
  status : String
  currentQuestion : Option GameQuestion
  currentQuestionIndex : Int
  players : List GamePlayer
  totalQuestions : Int
deriving DecidableEq, Repr

/-- Combined mutable state of the service: database plus Redis cache. -/
structure ServiceState where
  db : DB
  redis : List (String × GameState)
deriving DecidableEq, Repr

/-! Typed errors standing for the Go error values returned by the service. -/

/-- Error outcomes; each constructor corresponds to one Go error return. -/
inductive GameError where
  /-- "game not found" -/
  | gameNotFound
  /-- "quiz not found" -/
  | quizNotFound
  /-- "unauthorized to start this game" / "unauthorized to control this game" -/
  | unauthorized
  /-- a db.Create failing on the unique index over Game.Pin -/
  | duplicateKey
  /-- "game state not found in Redis" / "game state not found" -/
  | gameStateNotFound
  /-- "question index out of range" -/
  | questionIndexOutOfRange
  /-- "invalid question index" -/
  | invalidQuestionIndex
  /-- "game is not active" -/
  | gameNotActive
  /-- "answer already submitted" -/
  | answerAlreadySubmitted
  /-- "question not found" -/
  | questionNotFound
  /-- "option not found" -/
  | optionNotFound
  /-- fmt.Errorf("game has status ... - cannot join") -/
  | cannotJoin (status : String)
  /-- "player name already taken" -/
  | nameAlreadyTaken
deriving DecidableEq, Repr

/-! Broadcast events (Hub.BroadcastToGame payloads). -/

/-- The question object embedded in a question_start broadcast (no
correctness flags in the options). -/
structure BroadcastQuestion where
  id : Nat
  text : String
  timeLimit : Int
  options : List GameOption
deriving DecidableEq, Repr

/-- One element of the answers list in a question_end broadcast. -/
structure AnswerResult where
  playerId : Nat
  playerName : String
  optionId : Nat
  isCorrect : Bool
  points : Int
  timeSpent : Int
deriving DecidableEq, Repr

/-- Session-wide broadcasts emitted by the engine.  gameEnd covers both
payload shapes in the source: NextQuestion sends message, final_leaderboard
and total_questions (no reason); the Hub's creator-disconnect path sends
message and reason only. -/
inductive Event where
  | questionStart (pin : String) (questionIndex : Int) (question : BroadcastQuestion)
      (totalQuestions : Int)
  | timerUpdate (pin : String) (questionIndex : Int) (timeLeft : Int)
  | questionEnd (pin : String) (questionIndex : Int) (question : Question)
      (questionOptions : List ModelOption) (correctOption : Option ModelOption)
      (answers : List AnswerResult) (totalQuestions : Int)
  | scoreUpdate (pin : String) (players : List Player) (playerId : Nat) (pointsEarned : Int)
  | gameEnd (pin : String) (message : String) (reason : Option String)
      (finalLeaderboard : Option (List GamePlayer)) (totalQuestions : Option Int)
  | playerUpdate (pin : String) (action : String) (player : Player)
deriving DecidableEq, Repr

/-! Pin normalization.  The Go code uses strings.ToLower / SQL LOWER; on the
ASCII session pins this engine generates (lowercase hex) and compares, that
is ASCII lowercasing, which is modelled here directly so that concrete
instances evaluate inside the kernel. -/

/-- ASCII lowercasing of one character. -/
def charToLower (c : Char) : Char :=
  if c.toNat < 65 then c
  else if c.toNat ≤ 90 then Char.ofNat (c.toNat + 32)
  else c

/-- strings.ToLower on ASCII strings. -/
def lower (s : String) : String := String.mk (s.data.map charToLower)

/-! Database queries used by the service (each mirrors one GORM call). -/

/-- db.Where("LOWER(pin) = ?", normalizedPin).First(&game): the argument is
expected to be already lowercased by the caller, as in the Go code. -/
def findGameByPin (db : DB) (normalizedPin : String) : Option Game :=
  db.games.find? (fun g => lower g.pin == normalizedPin)

/-- db.Where("id = ? AND user_id = ?", quizID, userID).First(&quiz). -/
def findQuizOwned (db : DB) (quizId userId : Nat) : Option Quiz :=
  db.quizzes.find? (fun q => q.id == quizId && q.userId == userId)

/-- Preload("Quiz.Questions"): the questions of a quiz in table order (the
game service does not order them). -/
def questionsOfQuiz (db : DB) (quizId : Nat) : List Question :=
  db.questions.filter (fun q => q.quizId == quizId)

/-- Preload("Quiz.Questions.Options"): the options of one question. -/
def optionsOfQuestion (db : DB) (questionId : Nat) : List ModelOption :=
  db.options.filter (fun o => o.questionId == questionId)

/-- db.Where("game_id = ?", game.ID).Find(&players). -/
def playersOfGame (db : DB) (gameId : Nat) : List Player :=
  db.players.filter (fun p => p.gameId == gameId)

/-- db.First(&question, req.QuestionID): a global lookup by primary key. -/
def findQuestion (db : DB) (questionId : Nat) : Option Question :=
  db.questions.find? (fun q => q.id == questionId)

/-- db.First(&option, req.OptionID): a global lookup by primary key. -/
def findOption (db : DB) (optionId : Nat) : Option ModelOption :=
  db.options.find? (fun o => o.id == optionId)

/-- The duplicate-answer probe: db.Where("game_id = ? AND player_id = ? AND
question_id = ?").First succeeds iff such a row exists. -/
def answerExists (db : DB) (gameId playerId questionId : Nat) : Bool :=
  db.answers.any (fun a =>
    a.gameId == gameId && a.playerId == playerId && a.questionId == questionId)

/-- db.Where("game_id = ? AND question_id = ?").Find(&gameAnswers). -/
def answersOfQuestion (db : DB) (gameId questionId : Nat) : List GameAnswer :=
  db.answers.filter (fun a => a.gameId == gameId && a.questionId == questionId)

/-- db.Model(&game).Update(...): replace the row with matching id. -/
def updateGame (db : DB) (g : Game) : DB :=
  { db with games := db.games.map (fun x => if x.id == g.id then g else x) }

/-- db.Model(&models.Player) Update("score", score + points) on id = playerID. -/
def updatePlayerScore (db : DB) (playerId : Nat) (points : Int) : DB :=
  { db with players := db.players.map (fun p =>
      if p.id == playerId then { p with score := p.score + points } else p) }

/-- Auto-increment primary key for a freshly created row. -/
def freshId (ids : List Nat) : Nat := ids.foldr max 0 + 1

/-! Redis access (storeGameState / getGameState).  In the Go code both
functions lowercase their pin argument again; every call site already passes
the normalized (lowercased) pin, so that inner ToLower is the identity and is
dropped here. -/

/-- getGameState: read "game:" ++ pin from the cache. -/
def getGameState (redis : List (String × GameState)) (pin : String) : Option GameState :=
  (redis.find? (fun e => e.1 == "game:" ++ pin)).map (fun e => e.2)

/-- storeGameState: write "game:" ++ pin (overwriting any previous value). -/
def storeGameState (redis : List (String × GameState)) (pin : String) (gs : GameState) :
    List (String × GameState) :=
  ("game:" ++ pin, gs) :: redis.filter (fun e => !(e.1 == "game:" ++ pin))

/-- Projection of a Player row into the snapshot/leaderboard shape. -/
def toGamePlayer (p : Player) : GamePlayer :=
  { id := p.id, name := p.name, score := p.score }

/-- Projection of an option into its broadcast form: id and text only,
IsCorrect intentionally omitted (StartQuestion's copy loop). -/
def toGameOption (o : ModelOption) : GameOption :=
  { id := o.id, text := o.text }

/-! The scoring algorithm. -/

/-- calculatePoints from game_service.go.  `Int.tdiv` is Go's `/` on int
(truncation toward zero); the float64 round trip through math.Max is exact on
these magnitudes, so the bonus is `max 0` of the truncated quotient. -/
def calculatePoints (timeSpent timeLimit : Int) (isCorrect : Bool) : Int :=
  if !isCorrect then 0
  else
    let basePoints : Int := 100
    let timeBonus : Int := max 0 (Int.tdiv (50 * (timeLimit - timeSpent)) timeLimit)
    basePoints + timeBonus

/-! Service operations (GameService methods).  Fallible operations return
`Except GameError`; a returned `.ok` carries the successor state together
with the broadcasts emitted during the call.  An `.error` result corresponds
to an early `return err` in Go: no state was written. -/

/-- The JSON body of POST /games/:pin/answer.  TimeSpent has no `binding`
validation in Go, so any int (including a negative one) is accepted. -/
structure SubmitAnswerRequest where
  playerId : Nat
  questionId : Nat
  optionId : Nat
  timeSpent : Int
deriving DecidableEq, Repr

/-- Update the first snapshot player with the given id (the Go loop breaks
after the first match). -/
def bumpFirstScore : List GamePlayer → Nat → Int → List GamePlayer
  | [], _, _ => []
  | p :: rest, pid, pts =>
    if p.id == pid then { p with score := p.score + pts } :: rest
    else p :: bumpFirstScore rest pid pts

/-- GameService.SubmitAnswer.  Checks, in source order: game found, game
active, no duplicate answer for (game, player, question), question found,
option found; then defaults a zero TimeSpent to the question's time limit,
computes the points, appends the answer row, bumps the player's score in the
database and in the snapshot, and broadcasts a score_update. -/
def SubmitAnswer (s : ServiceState) (gamePin : String) (playerID : Nat)
    (req : SubmitAnswerRequest) : Except GameError (ServiceState × List Event) :=
  let normalizedPin := lower gamePin
  match findGameByPin s.db normalizedPin with
  | none => .error .gameNotFound
  | some game =>
    if game.status != "active" then .error .gameNotActive
    else if answerExists s.db game.id playerID req.questionId then
      .error .answerAlreadySubmitted
    else
      match findQuestion s.db req.questionId with
      | none => .error .questionNotFound
      | some question =>
        match findOption s.db req.optionId with
        | none => .error .optionNotFound
        | some option =>
          let timeSpent := if req.timeSpent == 0 then question.timeLimit else req.timeSpent
          let points := calculatePoints timeSpent question.timeLimit option.isCorrect
          let gameAnswer : GameAnswer :=
            { gameId := game.id, playerId := playerID, questionId := req.questionId,
              optionId := req.optionId, isCorrect := option.isCorrect,
              timeSpent := timeSpent, points := points }
          let db1 : DB := { s.db with answers := s.db.answers ++ [gameAnswer] }
          let db2 := updatePlayerScore db1 playerID points
          let redis' :=
            match getGameState s.redis normalizedPin with
            | none => s.redis
            | some gs =>
              storeGameState s.redis normalizedPin
                { gs with players := bumpFirstScore gs.players playerID points }
          let updatedPlayers := playersOfGame db2 game.id
          .ok ({ db := db2, redis := redis' },
            [Event.scoreUpdate normalizedPin updatedPlayers playerID points])

/-! Pin generation (generatePin): 3 random bytes, hex-encoded, first 6
characters.  The crypto/rand source is modelled as an explicit byte-list
argument. -/

/-- One hex digit (lowercase), as produced by encoding/hex; for n < 16 this
is exactly the digit table "0123456789abcdef". -/
def hexDigit (n : Nat) : Char := Nat.digitChar n

/-- hex.EncodeToString over a byte list. -/
def hexEncodeBytes (bytes : List Nat) : String :=
  String.mk ((bytes.map (fun b => [hexDigit (b / 16), hexDigit (b % 16)])).flatten)

/-- GameService.generatePin, with the three random bytes made explicit. -/
def generatePin (randBytes : List Nat) : String :=
  (hexEncodeBytes randBytes).take 6

/-- GameService.StartGame (session creation).  Loads the quiz (ownership
check), generates the pin from the given random bytes exactly once, creates
the Game row — failing on the unique index over Pin if any existing row
carries the same pin, with no retry — and writes the initial waiting-state
snapshot with index -1 and an empty player list. -/
def StartGame (s : ServiceState) (userID quizID : Nat) (randBytes : List Nat) :
    Except GameError (ServiceState × Game) :=
  match findQuizOwned s.db quizID userID with
  | none => .error .quizNotFound
  | some quiz =>
    let pin := generatePin randBytes
    if s.db.games.any (fun g => g.pin == pin) then .error .duplicateKey
    else
      let game : Game :=
        { id := freshId (s.db.games.map (fun g => g.id)), quizId := quizID,
          pin := pin, status := "waiting" }
      let db' : DB := { s.db with games := s.db.games ++ [game] }
      let gameState : GameState :=
        { gameId := game.id, quizId := game.quizId, pin := game.pin,
          status := game.status, currentQuestion := none,
          currentQuestionIndex := -1, players := [],
          totalQuestions := ((questionsOfQuiz s.db quiz.id).length : Int) }
      let redis' := storeGameState s.redis (lower game.pin) gameState
      .ok ({ db := db', redis := redis' }, game)

/-- GameService.StartQuiz (session activation).  Looks the game up, verifies
quiz ownership, and unconditionally writes status "active" — the source has
no check of the current status.  Then refreshes the snapshot's status, total
and player list from the database. -/
def StartQuiz (s : ServiceState) (gamePin : String) (userID : Nat) :
    Except GameError (ServiceState × Game) :=
  let normalizedPin := lower gamePin
  match findGameByPin s.db normalizedPin with
  | none => .error .gameNotFound
  | some game =>
    match findQuizOwned s.db game.quizId userID with
    | none => .error .unauthorized
    | some _ =>
      let game' : Game := { game with status := "active" }
      let db' := updateGame s.db game'
      let players := playersOfGame db' game.id
      let qs := questionsOfQuiz db' game.quizId
      let gs0 : GameState :=
        match getGameState s.redis normalizedPin with
        | none =>
          { gameId := game.id, quizId := game.quizId, pin := normalizedPin,
            status := "active", currentQuestion := none,
            currentQuestionIndex := -1, players := [],
            totalQuestions := (qs.length : Int) }
        | some gs =>
          { gs with status := "active", totalQuestions := (qs.length : Int) }
      let gs1 : GameState := { gs0 with players := players.map toGamePlayer }
      .ok ({ db := db', redis := storeGameState s.redis normalizedPin gs1 }, game')

/-- GameService.StartQuestion.  The Go code checks only the upper bound and
would panic on a negative index (unreachable from its call sites, which pass
0 or a previous index plus one); both out-of-range directions are mapped to
the same error here.  Builds the snapshot question without correctness
flags, stores it with the new index, and broadcasts question_start.  The
spawned timer goroutine is modelled separately by `runQuestionTimer`. -/
def StartQuestion (s : ServiceState) (gamePin : String) (questionIndex : Int) :
    Except GameError (ServiceState × List Event) :=
  let normalizedPin := lower gamePin
  match findGameByPin s.db normalizedPin with
  | none => .error .gameNotFound
  | some game =>
    let qs := questionsOfQuiz s.db game.quizId
    if questionIndex < 0 ∨ (qs.length : Int) ≤ questionIndex then
      .error .questionIndexOutOfRange
    else
      match qs.get? questionIndex.toNat with
      | none => .error .questionIndexOutOfRange
      | some question =>
        match getGameState s.redis normalizedPin with
        | none => .error .gameStateNotFound
        | some gameState =>
          let opts := (optionsOfQuestion s.db question.id).map toGameOption
          let currentQuestion : GameQuestion :=
            { id := question.id, text := question.text,
              timeLimit := question.timeLimit, options := opts,
              timeLeft := question.timeLimit }
          let gameState' :=
            { gameState with currentQuestionIndex := questionIndex,
                             currentQuestion := some currentQuestion }
          let payload : BroadcastQuestion :=
            { id := question.id, text := question.text,
              timeLimit := question.timeLimit, options := opts }
          .ok ({ s with redis := storeGameState s.redis normalizedPin gameState' },
            [Event.questionStart normalizedPin questionIndex payload (qs.length : Int)])

/-- GameService.EndQuestion.  Reads the question, gathers its answers,
resolves each answerer's name, finds the correct option and broadcasts
question_end with the full question (correctness included).  It writes
nothing: the returned state is the input state, and there is no completion
flag, so every invocation broadcasts again. -/
def EndQuestion (s : ServiceState) (gamePin : String) (questionIndex : Int) :
    Except GameError (ServiceState × List Event) :=
  let normalizedPin := lower gamePin
  match findGameByPin s.db normalizedPin with
  | none => .error .gameNotFound
  | some game =>
    let qs := questionsOfQuiz s.db game.quizId
    if questionIndex < 0 ∨ (qs.length : Int) ≤ questionIndex then
      .error .invalidQuestionIndex
    else
      match qs.get? questionIndex.toNat with
      | none => .error .invalidQuestionIndex
      | some question =>
        let gameAnswers := answersOfQuestion s.db game.id question.id
        let answerResults : List AnswerResult := gameAnswers.map (fun a =>
          { playerId := a.playerId,
            playerName :=
              (((s.db.players.find? (fun p => p.id == a.playerId)).map
                (fun p => p.name)).getD ""),
            optionId := a.optionId, isCorrect := a.isCorrect,
            points := a.points, timeSpent := a.timeSpent })
        let questionOptions := optionsOfQuestion s.db question.id
        let correctOption := questionOptions.find? (fun o => o.isCorrect)
        .ok (s, [Event.questionEnd normalizedPin questionIndex question questionOptions
          correctOption answerResults (qs.length : Int)])

/-- The body of the timer loop in runQuestionTimer: with fuel n+1, one tick
elapses, timeLeft becomes n, the snapshot's TimeLeft is refreshed and a
timer_update is broadcast, then the loop continues with fuel n. -/
def timerTicks (pin : String) (questionIndex : Int) :
    Nat → ServiceState → ServiceState × List Event
  | 0, s => (s, [])
  | Nat.succ n, s =>
    let s' : ServiceState :=
      match getGameState s.redis pin with
      | some gs =>
        match gs.currentQuestion with
        | some cq =>
          let gs' : GameState :=
            { gs with currentQuestion := some { cq with timeLeft := (n : Int) } }
          { s with redis := storeGameState s.redis pin gs' }
        | none => s
      | none => s
    let rest := timerTicks pin questionIndex n s'
    (rest.1, Event.timerUpdate pin questionIndex (n : Int) :: rest.2)

/-- GameService.runQuestionTimer.  Counts down from the time limit, emitting
one timer_update per second, and on reaching zero always invokes EndQuestion
for its question index — the loop has no cancellation signal and nothing
else ever stops it. -/
def runQuestionTimer (s : ServiceState) (gamePin : String)
    (questionIndex timeLimit : Int) : ServiceState × List Event :=
  let normalizedPin := lower gamePin
  let ticked := timerTicks normalizedPin questionIndex timeLimit.toNat s
  match EndQuestion ticked.1 normalizedPin questionIndex with
  | .ok r => (r.1, ticked.2 ++ r.2)
  | .error _ => (ticked.1, ticked.2)

/-- Stable insertion, descending by score (Order("score DESC")). -/
def insertByScore (p : Player) : List Player → List Player
  | [] => [p]
  | q :: rest => if q.score < p.score then p :: q :: rest else q :: insertByScore p rest

/-- Sort a player list by score, descending. -/
def sortByScoreDesc (ps : List Player) : List Player :=
  ps.foldr insertByScore []

/-- GameService.NextQuestion.  Advances the snapshot index by one: if no
question remains it marks the game finished (db and snapshot, index set to
the total), builds the final leaderboard and broadcasts game_end; otherwise
it starts the next question.  On a snapshot that is already at or past the
total it re-runs the finish branch — there is no terminal-state check. -/
def NextQuestion (s : ServiceState) (gamePin : String) :
    Except GameError (ServiceState × List Event) :=
  let normalizedPin := lower gamePin
  match getGameState s.redis normalizedPin with
  | none => .error .gameStateNotFound
  | some gameState =>
    match findGameByPin s.db normalizedPin with
    | none => .error .gameNotFound
    | some game =>
      let qs := questionsOfQuiz s.db game.quizId
      let nextQuestionIndex := gameState.currentQuestionIndex + 1
      if (qs.length : Int) ≤ nextQuestionIndex then
        let game' : Game := { game with status := "finished" }
        let db' := updateGame s.db game'
        let gameState' :=
          { gameState with status := "finished", currentQuestion := none,
                           currentQuestionIndex := (qs.length : Int) }
        let redis' := storeGameState s.redis normalizedPin gameState'
        let finalLeaderboard :=
          (sortByScoreDesc (playersOfGame db' game.id)).map toGamePlayer
        .ok ({ db := db', redis := redis' },
          [Event.gameEnd normalizedPin "Quiz completed! Here are the final results:"
            none (some finalLeaderboard) (some (qs.length : Int))])
      else
        StartQuestion s normalizedPin nextQuestionIndex

/-- GameService.JoinGame.  Requires the game's status to be waiting or
active and the display name to be free within the game; creates the player
with score 0 and appends it to the snapshot's player list (creating a
minimal snapshot when the cache has none, with TotalQuestions left at its
zero value as in the source). -/
def JoinGame (s : ServiceState) (pin name : String) :
    Except GameError (ServiceState × Player) :=
  let pinLower := lower pin
  match findGameByPin s.db pinLower with
  | none => .error .gameNotFound
  | some game =>
    if game.status != "waiting" && game.status != "active" then
      .error (.cannotJoin game.status)
    else if s.db.players.any (fun p => p.gameId == game.id && p.name == name) then
      .error .nameAlreadyTaken
    else
      let player : Player :=
        { id := freshId (s.db.players.map (fun p => p.id)), gameId := game.id,
          name := name, score := 0 }
      let db' : DB := { s.db with players := s.db.players ++ [player] }
      let normalizedPin := lower game.pin
      let gameState : GameState :=
        match getGameState s.redis normalizedPin with
        | none =>
          { gameId := game.id, quizId := game.quizId, pin := normalizedPin,
            status := game.status, currentQuestion := none,
            currentQuestionIndex := -1, players := [], totalQuestions := 0 }
        | some gs => gs
      let gameState' :=
        { gameState with players := gameState.players ++ [toGamePlayer player] }
      .ok ({ db := db', redis := storeGameState s.redis normalizedPin gameState' },
        player)

/-! The connection hub (quiz_service.go).  Only the unregister path matters
for the claims; a client is its (pin, player id, name) binding. -/

/-- A live websocket connection as registered with the Hub. -/
structure Client where
  gamePin : String
  playerId : Nat
  playerName : String
deriving DecidableEq, Repr

/-- strings.EqualFold on pins, as used by every Hub broadcast. -/
def pinMatches (a b : String) : Bool := lower a == lower b

/-- Modelled from the spec: `GameService.UpdateGameStatus` is invoked from
Hub.Run on host disconnect but its definition is not among the sources; per
the spec the Hub "triggers the Controller to force-finish the session", so
this writes the given status to the session's durable record, failing only
when the session is unknown. -/
def UpdateGameStatus (db : DB) (gamePin status : String) : Except GameError DB :=
  match findGameByPin db (lower gamePin) with
  | none => .error .gameNotFound
  | some game => .ok (updateGame db { game with status := status })

/-- Delivery step of Hub.BroadcastToGame: the function's first action is
h.mutex.RLock().  Go's sync.RWMutex is not reentrant: when the calling
goroutine already holds the write lock, that RLock blocks forever, so no
message is handed to any client — modelled as `none`.  With the lock free it
delivers to every registered client whose pin matches case-insensitively
(returned as the recipient list). -/
def BroadcastToGame (writeLockHeld : Bool) (clients : List Client) (gamePin : String) :
    Option (List Client) :=
  if writeLockHeld then none
  else some (clients.filter (fun cl => pinMatches cl.gamePin gamePin))

/-- Result of one pass of Hub.Run's unregister branch.  `attempted` is the
broadcast the branch constructs; `delivered` the events that actually reach
client send queues; `blocked` records that Hub.Run is stuck inside a
broadcast's RLock and never reaches its Unlock (no further hub progress). -/
structure UnregisterResult where
  clients : List Client
  state : ServiceState
  attempted : List Event
  delivered : List Event
  recipients : List Client
  blocked : Bool
deriving DecidableEq, Repr

/-- Hub.Run, unregister case.  The whole branch body runs between
h.mutex.Lock() and h.mutex.Unlock().  If the client is registered it is
removed; when it is the creator sentinel (player id 0) the game is
force-finished and a game_end with reason "creator_disconnected" is passed
to BroadcastToGame — which is invoked while the write lock is still held, so
its RLock self-deadlocks and the broadcast is never delivered. -/
def hubUnregister (s : ServiceState) (clients : List Client) (c : Client) :
    UnregisterResult :=
  if c ∈ clients then
    let clients' := clients.erase c
    if c.playerId == 0 then
      match UpdateGameStatus s.db c.gamePin "finished" with
      | .ok db' =>
        let ev := Event.gameEnd c.gamePin
          "Quiz creator has left the game. The quiz has ended."
          (some "creator_disconnected") none none
        match BroadcastToGame true clients' c.gamePin with
        | none =>
          { clients := clients', state := { s with db := db' },
            attempted := [ev], delivered := [], recipients := [], blocked := true }
        | some recips =>
          { clients := clients', state := { s with db := db' },
            attempted := [ev], delivered := [ev], recipients := recips,
            blocked := false }
      | .error _ =>
        { clients := clients', state := s, attempted := [], delivered := [],
          recipients := [], blocked := false }
    else
      { clients := clients', state := s, attempted := [], delivered := [],
        recipients := [], blocked := false }
  else
    { clients := clients, state := s, attempted := [], delivered := [],
      recipients := [], blocked := false }

/-! Result projections shared by the theorems below. -/

/-- Whether a fallible call succeeded. -/
def isOk {α : Type} : Except GameError α → Bool
  | .ok _ => true
  | .error _ => false

/-- The error of a fallible call, if it failed. -/
def errorOf {α : Type} : Except GameError α → Option GameError
  | .ok _ => none
  | .error e => some e

/-- The state after a fallible call: its successor state on success, the
unchanged input state on error (Go returned before writing anything). -/
def okState {β : Type} (s : ServiceState) : Except GameError (ServiceState × β) → ServiceState
  | .ok r => r.1
  | .error _ => s

/-- The broadcasts emitted by a fallible call (none on error). -/
def broadcastEvents : Except GameError (ServiceState × List Event) → List Event
  | .ok r => r.2
  | .error _ => []

/-- The status of the game returned by a session-level call, if it succeeded. -/
def okGameStatus : Except GameError (ServiceState × Game) → Option String
  | .ok r => some r.2.status
  | .error _ => none

/-- The snapshot's current question index after a call, looked up under the
given normalized pin. -/
def snapshotIndexAfter (r : Except GameError (ServiceState × List Event))
    (pin : String) : Option Int :=
  match r with
  | .ok p => (getGameState p.1.redis pin).map (fun gs => gs.currentQuestionIndex)
  | .error _ => none

/-- The full snapshot stored after a call, looked up under the given
normalized pin. -/
def snapshotAfter (r : Except GameError (ServiceState × List Event))
    (pin : String) : Option GameState :=
  match r with
  | .ok p => getGameState p.1.redis pin
  | .error _ => none

/-- How many question_end broadcasts for the given (pin, index) an event
list contains. -/
def questionEndCount (evs : List Event) (pin : String) (idx : Int) : Nat :=
  (evs.filter (fun e =>
    match e with
    | .questionEnd p i _ _ _ _ _ => p == pin && i == idx
    | _ => false)).length

/-! A small concrete session used by witnesses and counterexamples: one
quiz (id 1, owner 7) with three questions of 30 seconds and two options
each, one live game with pin "abc123", one player "alice" (id 2), and a
cached snapshot with question 0 open. -/

def quizA : Quiz := { id := 1, userId := 7 }

def questionA : Question := { id := 1, quizId := 1, text := "Q1", timeLimit := 30, order := 1 }

def questionB : Question := { id := 2, quizId := 1, text := "Q2", timeLimit := 30, order := 2 }

def questionC : Question := { id := 3, quizId := 1, text := "Q3", timeLimit := 30, order := 3 }

def optionA1 : ModelOption := { id := 11, questionId := 1, text := "yes", isCorrect := true, order := 1 }

def optionA2 : ModelOption := { id := 12, questionId := 1, text := "no", isCorrect := false, order := 2 }

def optionB1 : ModelOption := { id := 21, questionId := 2, text := "yes", isCorrect := true, order := 1 }

def optionB2 : ModelOption := { id := 22, questionId := 2, text := "no", isCorrect := false, order := 2 }

def optionC1 : ModelOption := { id := 31, questionId := 3, text := "yes", isCorrect := true, order := 1 }

def optionC2 : ModelOption := { id := 32, questionId := 3, text := "no", isCorrect := false, order := 2 }

def gameA : Game := { id := 1, quizId := 1, pin := "abc123", status := "active" }

def playerA : Player := { id := 2, gameId := 1, name := "alice", score := 0 }

def snapQ1 : GameQuestion :=
  { id := 1, text := "Q1", timeLimit := 30,
    options := [toGameOption optionA1, toGameOption optionA2], timeLeft := 30 }

def snapA : GameState :=
  { gameId := 1, quizId := 1, pin := "abc123", status := "active",
    currentQuestion := some snapQ1, currentQuestionIndex := 0,
    players := [toGamePlayer playerA], totalQuestions := 3 }

def dbA : DB :=
  { quizzes := [quizA],
    questions := [questionA, questionB, questionC],
    options := [optionA1, optionA2, optionB1, optionB2, optionC1, optionC2],
    games := [gameA], players := [playerA], answers := [] }

def stateA : ServiceState := { db := dbA, redis := [("game:abc123", snapA)] }

/-- The same session with the game already finished. -/
def stateFinished : ServiceState :=
  { stateA with db := { dbA with games := [{ gameA with status := "finished" }] } }

/-- The same session with the snapshot on question index 2. -/
def stateOnThird : ServiceState :=
  { stateA with redis := [("game:abc123", { snapA with currentQuestionIndex := 2 })] }

/-- The player returned by JoinGame, if it succeeded. -/
def okPlayer : Except GameError (ServiceState × Player) → Option Player
  | .ok r => some r.2
  | .error _ => none

/-- The snapshot index stored by StartGame for the created session, if the
call succeeded. -/
def startGameSnapshotIndex (r : Except GameError (ServiceState × Game)) : Option Int :=
  match r with
  | .ok p => (getGameState p.1.redis (lower p.2.pin)).map (fun gs => gs.currentQuestionIndex)
  | .error _ => none

/-- Two option rows that agree on everything except the correctness flag. -/
def sameExceptCorrect (a b : ModelOption) : Prop :=
  a.id = b.id ∧ a.questionId = b.questionId ∧ a.text = b.text ∧ a.order = b.order

/-- The host connection of the concrete session (sentinel player id 0). -/
def hostClient : Client := { gamePin := "abc123", playerId := 0, playerName := "host" }

/-- A player connection of the concrete session. -/
def aliceClient : Client := { gamePin := "abc123", playerId := 2, playerName := "alice" }

/-- The concrete session with the correctness flags of question 1's options
flipped, and nothing else changed. -/
def dbFlipped : DB :=
  { dbA with options :=
      [{ optionA1 with isCorrect := false }, { optionA2 with isCorrect := true },
       optionB1, optionB2, optionC1, optionC2] }

/-! Helper lemmas shared by the claim proofs. -/

/-- Char.ofNat round-trips on valid code points. -/
theorem toNat_ofNat_valid (n : Nat) (h : n.isValidChar) : (Char.ofNat n).toNat = n := by
  unfold Char.ofNat Char.ofNatAux
  split
  · rfl
  · next hn => exact absurd h hn

/-- ASCII lowercasing is idempotent on characters. -/
theorem charToLower_fix (c : Char) : charToLower (charToLower c) = charToLower c := by
  by_cases h1 : c.toNat < 65
  · have hc : charToLower c = c := by simp [charToLower, h1]
    rw [hc]; exact hc
  · by_cases h2 : c.toNat ≤ 90
    · have hv : (c.toNat + 32).isValidChar := Or.inl (by omega)
      have hc : charToLower c = Char.ofNat (c.toNat + 32) := by
        simp [charToLower, h1, h2]
      have ht : (Char.ofNat (c.toNat + 32)).toNat = c.toNat + 32 := toNat_ofNat_valid _ hv
      have hlt : ¬ (Char.ofNat (c.toNat + 32)).toNat < 65 := by rw [ht]; omega
      have hle : ¬ (Char.ofNat (c.toNat + 32)).toNat ≤ 90 := by rw [ht]; omega
      rw [hc]
      simp [charToLower, hlt, hle]
    · have hc : charToLower c = c := by simp [charToLower, h1, h2]
      rw [hc]; exact hc

/-- Normalizing an already-normalized pin is the identity. -/
theorem lower_idem (s : String) : lower (lower s) = lower s := by
  unfold lower
  have hdata : (String.mk (s.data.map charToLower)).data = s.data.map charToLower := rfl
  rw [hdata, List.map_map]
  congr 1
  exact List.map_congr_left (fun c _ => charToLower_fix c)

/-- Reading a key back directly after storing it yields the stored snapshot. -/
theorem getGameState_store (redis : List (String × GameState)) (pin : String)
    (gs : GameState) : getGameState (storeGameState redis pin gs) pin = some gs := by
  unfold getGameState storeGameState
  rw [List.find?_cons_of_pos _ (by simp)]
  rfl

/-- After updateGame rewrites the found game's row to the given status, a
lookup under the same pin finds a row carrying that status. -/
theorem find_status_after_update (gs : List Game) (pin : String) (g : Game) (st : String)
    (h : gs.find? (fun x => lower x.pin == pin) = some g) :
    ((gs.map (fun x => if x.id == g.id then { g with status := st } else x)).find?
        (fun x => lower x.pin == pin)).map (fun x => x.status) = some st := by
  induction gs with
  | nil => simp at h
  | cons a tl ih =>
    by_cases ha : (lower a.pin == pin) = true
    · rw [@List.find?_cons_of_pos Game (fun x => lower x.pin == pin) a tl ha] at h
      injection h with h
      subst h
      simp only [List.map_cons]
      have hid : (a.id == a.id) = true := beq_self_eq_true _
      rw [if_pos hid]
      rw [@List.find?_cons_of_pos Game (fun x => lower x.pin == pin)
        { a with status := st } _ ha]
      rfl
    · rw [@List.find?_cons_of_neg Game (fun x => lower x.pin == pin) a tl ha] at h
      simp only [List.map_cons]
      by_cases hid : (a.id == g.id) = true
      · have hg : (lower g.pin == pin) = true :=
          @List.find?_some Game (fun x => lower x.pin == pin) g tl h
        rw [if_pos hid]
        rw [@List.find?_cons_of_pos Game (fun x => lower x.pin == pin)
          { g with status := st } _ hg]
        rfl
      · rw [if_neg hid]
        rw [@List.find?_cons_of_neg Game (fun x => lower x.pin == pin) a _ ha]
        exact ih h

/-- Filtering to one question and erasing correctness commutes with flipping
correctness flags: option tables that agree except on isCorrect produce the
same broadcast options. -/
theorem filter_map_game_options {l1 l2 : List ModelOption}
    (h : List.Forall₂ sameExceptCorrect l1 l2) (qid : Nat) :
    (l1.filter (fun o => o.questionId == qid)).map toGameOption
      = (l2.filter (fun o => o.questionId == qid)).map toGameOption := by
  induction h with
  | nil => rfl
  | cons hab htl ih =>
    rename_i a b l1' l2'
    obtain ⟨hid, hqid, htext, _⟩ := hab
    by_cases hq : (a.questionId == qid) = true
    · have hq2 : (b.questionId == qid) = true := by rw [← hqid]; exact hq
      rw [@List.filter_cons_of_pos ModelOption (fun o => o.questionId == qid) a l1' hq,
        @List.filter_cons_of_pos ModelOption (fun o => o.questionId == qid) b l2' hq2,
        List.map_cons, List.map_cons, ih]
      congr 1
      simp [toGameOption, hid, htext]
    · have hq2 : ¬ (b.questionId == qid) = true := by rw [← hqid]; exact hq
      rw [@List.filter_cons_of_neg ModelOption (fun o => o.questionId == qid) a l1' hq,
        @List.filter_cons_of_neg ModelOption (fun o => o.questionId == qid) b l2' hq2]
      exact ih

/-! Claims. -/

/-- C1, counterexample: the code does not clamp time_spent into
[0, time_limit] — a correct answer with time_spent = -30 on a 30-second
question is awarded 200 points, outside the claimed range [100, 150]. -/
theorem calculatePoints_negative_time_not_clamped :
    calculatePoints (-30) 30 true = 200 ∧ ¬(calculatePoints (-30) 30 true ≤ 150) := by
  decide

/-- C1 (amended): an incorrect answer earns 0; a correct answer earns
100 + max(0, trunc(50 * (time_limit - time_spent) / time_limit)) with no
clamping of time_spent, so the total lies in [100, 150] whenever
0 ≤ time_spent ≤ time_limit, and equals exactly 100 whenever
time_spent ≥ time_limit — in particular at time_spent = time_limit, the
value SubmitAnswer substitutes for a missing/zero TimeSpent — while a
negative time_spent escapes the bound (see the counterexample). -/
theorem calculatePoints_spec_amended (timeSpent timeLimit : Int) (hpos : 0 < timeLimit) :
    calculatePoints timeSpent timeLimit false = 0
    ∧ (0 ≤ timeSpent → timeSpent ≤ timeLimit →
        100 ≤ calculatePoints timeSpent timeLimit true
          ∧ calculatePoints timeSpent timeLimit true ≤ 150)
    ∧ (timeLimit ≤ timeSpent → calculatePoints timeSpent timeLimit true = 100) := by
  have hval : calculatePoints timeSpent timeLimit true
      = 100 + max 0 (Int.tdiv (50 * (timeLimit - timeSpent)) timeLimit) := rfl
  refine ⟨rfl, ?_, ?_⟩
  · intro h0 hle
    rw [hval]
    constructor
    · have h := le_max_left (0 : Int) (Int.tdiv (50 * (timeLimit - timeSpent)) timeLimit)
      linarith
    · have hnum0 : (0 : Int) ≤ 50 * (timeLimit - timeSpent) := by nlinarith
      have hnum : 50 * (timeLimit - timeSpent) ≤ 50 * timeLimit := by nlinarith
      have hdiv : Int.tdiv (50 * (timeLimit - timeSpent)) timeLimit ≤ 50 := by
        rw [Int.tdiv_eq_ediv hnum0 (le_of_lt hpos)]
        calc 50 * (timeLimit - timeSpent) / timeLimit
            ≤ 50 * timeLimit / timeLimit := Int.ediv_le_ediv hpos hnum
          _ = 50 := Int.mul_ediv_cancel 50 (ne_of_gt hpos)
      have h := max_le (by norm_num : (0:Int) ≤ 50) hdiv
      linarith
  · intro hge
    rw [hval]
    have hnum : 50 * (timeLimit - timeSpent) ≤ 0 := by nlinarith
    have h1 : 0 ≤ (-(50 * (timeLimit - timeSpent))).tdiv timeLimit :=
      Int.tdiv_nonneg (by omega) (le_of_lt hpos)
    have h2 : (-(50 * (timeLimit - timeSpent))).tdiv timeLimit
        = -((50 * (timeLimit - timeSpent)).tdiv timeLimit) := Int.neg_tdiv _ _
    have h3 : (50 * (timeLimit - timeSpent)).tdiv timeLimit ≤ 0 := by omega
    rw [max_eq_left h3]
    norm_num

/-- C1, witness for the amended claim at the spec's own test vectors:
time_limit 30 with time_spent 10 gives a score inside [100, 150] (it is
133); time_spent 40 or 30 (the zero/missing substitute) gives exactly 100. -/
theorem calculatePoints_spec_amended_witness :
    (calculatePoints 10 30 false = 0
      ∧ (100 ≤ calculatePoints 10 30 true ∧ calculatePoints 10 30 true ≤ 150))
    ∧ calculatePoints 40 30 true = 100
    ∧ calculatePoints 30 30 true = 100 :=
  ⟨⟨(calculatePoints_spec_amended 10 30 (by decide)).1,
    (calculatePoints_spec_amended 10 30 (by decide)).2.1 (by decide) (by decide)⟩,
   (calculatePoints_spec_amended 40 30 (by decide)).2.2 (by decide),
   (calculatePoints_spec_amended 30 30 (by decide)).2.2 (by decide)⟩

/-- C2: EndQuestion writes no state and has no completion flag, so invoking
it twice for question 0 of the same session emits two question_end
broadcasts for that question, and a timer always ends in exactly one further
EndQuestion invocation of its own (it has no cancellation signal). -/
theorem EndQuestion_double_invocation_double_broadcast :
    okState stateA (EndQuestion stateA "abc123" 0) = stateA
    ∧ questionEndCount
        (broadcastEvents (EndQuestion stateA "abc123" 0)
          ++ broadcastEvents
              (EndQuestion (okState stateA (EndQuestion stateA "abc123" 0)) "abc123" 0))
        "abc123" 0 = 2
    ∧ questionEndCount (runQuestionTimer stateA "abc123" 0 30).2 "abc123" 0 = 1 := by
  decide

/-- C3, counterexample: on a session whose status is "finished", StartQuiz
succeeds and moves the status back to "active" — the finished state is not
terminal and the transition runs backward. -/
theorem StartQuiz_reactivates_finished_session :
    (findGameByPin stateFinished.db "abc123").map (fun g => g.status) = some "finished"
    ∧ okGameStatus (StartQuiz stateFinished "abc123" 7) = some "active"
    ∧ (match StartQuiz stateFinished "abc123" 7 with
        | .ok r => (findGameByPin r.1.db "abc123").map (fun g => g.status)
        | .error _ => none) = some "active" := by
  decide

/-- C5, counterexample: with question id 1 currently open, SubmitAnswer for
question id 2 succeeds, creates the answer row and credits its points to the
player — no check relates the submitted question to the open one. -/
theorem SubmitAnswer_accepts_non_current_question :
    ((getGameState stateA.redis "abc123").bind
        (fun gs => gs.currentQuestion)).map (fun q => q.id) = some 1
    ∧ isOk (SubmitAnswer stateA "abc123" 2
        { playerId := 2, questionId := 2, optionId := 21, timeSpent := 10 }) = true
    ∧ ((okState stateA (SubmitAnswer stateA "abc123" 2
        { playerId := 2, questionId := 2, optionId := 21, timeSpent := 10 })).db.answers.map
          (fun a => a.questionId)) = [2]
    ∧ ((playersOfGame (okState stateA (SubmitAnswer stateA "abc123" 2
        { playerId := 2, questionId := 2, optionId := 21, timeSpent := 10 })).db 1).map
          (fun p => p.score)) = [133] := by
  decide

/-- C6, counterexample: with the snapshot on question index 2, StartQuestion
for index 0 succeeds and writes index 0 — the current question index
decreased. -/
theorem StartQuestion_can_decrease_index :
    (getGameState stateOnThird.redis "abc123").map (fun gs => gs.currentQuestionIndex)
        = some 2
    ∧ snapshotIndexAfter (StartQuestion stateOnThird "abc123" 0) "abc123" = some 0 := by
  decide

/-- C8: generatePin derives the pin from the random bytes alone; when they
reproduce the pin of an existing session, StartGame fails on the database's
unique index over Pin and simply returns the error — there is no collision
check against live sessions and no retry. -/
theorem StartGame_collision_fails_without_retry :
    generatePin [171, 193, 35] = "abc123"
    ∧ (findGameByPin stateA.db "abc123").isSome = true
    ∧ errorOf (StartGame stateA 7 1 [171, 193, 35]) = some .duplicateKey := by
  decide

/-- SubmitAnswer rejects any session whose status is not "active". -/
theorem submitAnswer_error_of_not_active (s : ServiceState) (gamePin : String)
    (playerID : Nat) (req : SubmitAnswerRequest) (g : Game)
    (hfind : findGameByPin s.db (lower gamePin) = some g)
    (hstatus : g.status ≠ "active") :
    SubmitAnswer s gamePin playerID req = .error .gameNotActive := by
  have hb : (g.status != "active") = true := bne_iff_ne.mpr hstatus
  unfold SubmitAnswer
  simp only [hfind]
  simp [hb]

/-- JoinGame rejects any session whose status is neither "waiting" nor
"active", echoing that status in the error. -/
theorem joinGame_error_of_bad_status (s : ServiceState) (pin name : String) (g : Game)
    (hfind : findGameByPin s.db (lower pin) = some g)
    (hw : g.status ≠ "waiting") (ha : g.status ≠ "active") :
    JoinGame s pin name = .error (.cannotJoin g.status) := by
  have hb : (g.status != "waiting" && g.status != "active") = true := by
    simp [bne_iff_ne, hw, ha]
  unfold JoinGame
  simp only [hfind]
  simp [hb]

/-- StartQuiz, whenever the game exists and the requester owns the quiz,
succeeds and writes status "active" regardless of the previous status. -/
theorem startQuiz_always_activates (s : ServiceState) (gamePin : String) (userID : Nat)
    (g : Game) (qz : Quiz)
    (hfind : findGameByPin s.db (lower gamePin) = some g)
    (hquiz : findQuizOwned s.db g.quizId userID = some qz) :
    okGameStatus (StartQuiz s gamePin userID) = some "active"
    ∧ (match StartQuiz s gamePin userID with
        | .ok r => (findGameByPin r.1.db (lower gamePin)).map (fun x => x.status)
        | .error _ => none) = some "active" := by
  unfold StartQuiz
  simp only [hfind, hquiz]
  constructor
  · rfl
  · show (findGameByPin (updateGame s.db { g with status := "active" })
        (lower gamePin)).map (fun x => x.status) = some "active"
    exact find_status_after_update s.db.games (lower gamePin) g "active" hfind

/-- C3 (amended): on a finished session, SubmitAnswer and JoinGame do fail
with Conflict, but StartQuiz performs no status check: for an owner it
succeeds on an already active or finished session, writing status "active"
— so finished is not terminal and the status can move backward. -/
theorem finished_session_not_terminal_amended (s : ServiceState) (gamePin : String)
    (userID playerID : Nat) (req : SubmitAnswerRequest) (name : String)
    (g : Game) (qz : Quiz)
    (hfind : findGameByPin s.db (lower gamePin) = some g)
    (hfin : g.status = "finished")
    (hquiz : findQuizOwned s.db g.quizId userID = some qz) :
    SubmitAnswer s gamePin playerID req = .error .gameNotActive
    ∧ JoinGame s gamePin name = .error (.cannotJoin "finished")
    ∧ okGameStatus (StartQuiz s gamePin userID) = some "active" := by
  refine ⟨?_, ?_, ?_⟩
  · exact submitAnswer_error_of_not_active s gamePin playerID req g hfind
      (by rw [hfin]; decide)
  · have h := joinGame_error_of_bad_status s gamePin name g hfind
      (by rw [hfin]; decide) (by rw [hfin]; decide)
    rwa [hfin] at h
  · exact (startQuiz_always_activates s gamePin userID g qz hfind hquiz).1

/-- C3, witness: on the concrete finished session, answering and joining
fail while the owner's StartQuiz succeeds and reports status "active". -/
theorem finished_session_not_terminal_amended_witness :
    SubmitAnswer stateFinished "abc123" 2
        { playerId := 2, questionId := 1, optionId := 11, timeSpent := 10 }
      = .error .gameNotActive
    ∧ JoinGame stateFinished "abc123" "bob" = .error (.cannotJoin "finished")
    ∧ okGameStatus (StartQuiz stateFinished "abc123" 7) = some "active" :=
  finished_session_not_terminal_amended stateFinished "abc123" 7 2
    { playerId := 2, questionId := 1, optionId := 11, timeSpent := 10 } "bob"
    { gameA with status := "finished" } quizA (by decide) (by decide) (by decide)

/-- C5 (amended): SubmitAnswer fails with Conflict whenever the session is
not in "active" status, creating no AnswerRecord and awarding no points; the
relation of the submitted question to the currently open one is never
checked (see the counterexample, where an answer for a non-current question
is accepted). -/
theorem SubmitAnswer_inactive_session_rejected (s : ServiceState) (gamePin : String)
    (playerID : Nat) (req : SubmitAnswerRequest) (g : Game)
    (hfind : findGameByPin s.db (lower gamePin) = some g)
    (hstatus : g.status ≠ "active") :
    SubmitAnswer s gamePin playerID req = .error .gameNotActive :=
  submitAnswer_error_of_not_active s gamePin playerID req g hfind hstatus

/-- C5, witness: the concrete finished session rejects an answer. -/
theorem SubmitAnswer_inactive_session_rejected_witness :
    SubmitAnswer stateFinished "abc123" 2
        { playerId := 2, questionId := 2, optionId := 21, timeSpent := 5 }
      = .error .gameNotActive :=
  SubmitAnswer_inactive_session_rejected stateFinished "abc123" 2
    { playerId := 2, questionId := 2, optionId := 21, timeSpent := 5 }
    { gameA with status := "finished" } (by decide) (by decide)

/-- The successor state of a successful SubmitAnswer keeps the games table,
appends the answer row (so the duplicate probe now fires), and the accepted
call had found an active game. -/
theorem submitAnswer_ok_shape (s : ServiceState) (gamePin : String) (playerID : Nat)
    (req : SubmitAnswerRequest) (r : ServiceState × List Event)
    (h : SubmitAnswer s gamePin playerID req = .ok r) :
    r.1.db.games = s.db.games
    ∧ ∃ g, findGameByPin s.db (lower gamePin) = some g
        ∧ (g.status != "active") = false
        ∧ answerExists r.1.db g.id playerID req.questionId = true := by
  unfold SubmitAnswer at h
  cases hg : findGameByPin s.db (lower gamePin) with
  | none => simp only [hg] at h; exact Except.noConfusion h
  | some g =>
    simp only [hg] at h
    by_cases hstatus : (g.status != "active") = true
    · rw [if_pos hstatus] at h; exact Except.noConfusion h
    · rw [if_neg hstatus] at h
      by_cases hdup : answerExists s.db g.id playerID req.questionId = true
      · rw [if_pos hdup] at h; exact Except.noConfusion h
      · rw [if_neg hdup] at h
        cases hques : findQuestion s.db req.questionId with
        | none => simp only [hques] at h; exact Except.noConfusion h
        | some question =>
          simp only [hques] at h
          cases hopt : findOption s.db req.optionId with
          | none => simp only [hopt] at h; exact Except.noConfusion h
          | some opt =>
            simp only [hopt] at h
            injection h with h
            subst h
            refine ⟨rfl, g, rfl, by simpa using hstatus, ?_⟩
            simp [answerExists, updatePlayerScore, List.any_append]

/-- C4: once SubmitAnswer has accepted an answer for a (session, player,
question) triple, any further submission for the same triple — whatever its
option or time spent — fails against the resulting state with the
duplicate-answer Conflict and leaves the state unchanged: the duplicate
probe keys on (game, player, question) alone, so the first record is never
overwritten and only its points were credited. -/
theorem SubmitAnswer_duplicate_rejected (s : ServiceState) (gamePin : String)
    (playerID : Nat) (req req2 : SubmitAnswerRequest)
    (hsame : req2.questionId = req.questionId)
    (h : isOk (SubmitAnswer s gamePin playerID req) = true) :
    SubmitAnswer (okState s (SubmitAnswer s gamePin playerID req)) gamePin playerID req2
      = .error .answerAlreadySubmitted
    ∧ okState (okState s (SubmitAnswer s gamePin playerID req))
        (SubmitAnswer (okState s (SubmitAnswer s gamePin playerID req)) gamePin playerID req2)
      = okState s (SubmitAnswer s gamePin playerID req) := by
  cases hcall : SubmitAnswer s gamePin playerID req with
  | error e => rw [hcall] at h; simp [isOk] at h
  | ok r =>
    obtain ⟨hgames, g, hfind, hactive, hexists⟩ :=
      submitAnswer_ok_shape s gamePin playerID req r hcall
    have hfind' : findGameByPin r.1.db (lower gamePin) = some g := by
      unfold findGameByPin at hfind ⊢
      rw [hgames]
      exact hfind
    have hsecond : SubmitAnswer r.1 gamePin playerID req2
        = .error .answerAlreadySubmitted := by
      unfold SubmitAnswer
      simp only [hfind']
      simp [hactive, hsame, hexists]
    constructor
    · simpa [okState] using hsecond
    · simp [okState, hsecond]

/-- C4, witness: on the concrete session, alice answers question 1 with
option 11; a second submission for the same question with a different option
and a different time spent is rejected as a duplicate. -/
theorem SubmitAnswer_duplicate_rejected_witness :
    isOk (SubmitAnswer stateA "abc123" 2
        { playerId := 2, questionId := 1, optionId := 11, timeSpent := 10 }) = true
    ∧ SubmitAnswer
        (okState stateA (SubmitAnswer stateA "abc123" 2
          { playerId := 2, questionId := 1, optionId := 11, timeSpent := 10 }))
        "abc123" 2 { playerId := 2, questionId := 1, optionId := 12, timeSpent := 25 }
      = .error .answerAlreadySubmitted :=
  ⟨by decide,
   (SubmitAnswer_duplicate_rejected stateA "abc123" 2
     { playerId := 2, questionId := 1, optionId := 11, timeSpent := 10 }
     { playerId := 2, questionId := 1, optionId := 12, timeSpent := 25 }
     (by decide) (by decide)).1⟩

/-- A successful StartGame stores a snapshot with index -1 under the new
game's normalized pin. -/
theorem startGame_snapshot_index (s : ServiceState) (userID quizID : Nat)
    (randBytes : List Nat)
    (h : isOk (StartGame s userID quizID randBytes) = true) :
    startGameSnapshotIndex (StartGame s userID quizID randBytes) = some (-1) := by
  unfold startGameSnapshotIndex
  unfold StartGame at h ⊢
  generalize hpin : generatePin randBytes = pin at h ⊢
  cases hq : findQuizOwned s.db quizID userID with
  | none => simp only [hq] at h; exact Bool.noConfusion h
  | some quiz =>
    simp only [hq] at h ⊢
    by_cases hdup : (s.db.games.any fun g => g.pin == pin) = true
    · rw [if_pos hdup] at h; exact Bool.noConfusion h
    · rw [if_neg hdup] at h
      rw [if_neg hdup]
      simp only [getGameState_store]
      rfl

/-- A successful StartQuestion stores a snapshot whose index is exactly the
requested question index. -/
theorem startQuestion_snapshot_index (s : ServiceState) (gamePin : String) (i : Int)
    (h : isOk (StartQuestion s gamePin i) = true) :
    snapshotIndexAfter (StartQuestion s gamePin i) (lower gamePin) = some i := by
  unfold snapshotIndexAfter
  unfold StartQuestion at h ⊢
  cases hg : findGameByPin s.db (lower gamePin) with
  | none => simp only [hg] at h; exact Bool.noConfusion h
  | some game =>
    simp only [hg] at h ⊢
    by_cases hb : i < 0 ∨ ((questionsOfQuiz s.db game.quizId).length : Int) ≤ i
    · rw [if_pos hb] at h; exact Bool.noConfusion h
    · rw [if_neg hb] at h
      rw [if_neg hb]
      cases hget : (questionsOfQuiz s.db game.quizId).get? i.toNat with
      | none => simp only [hget] at h; exact Bool.noConfusion h
      | some question =>
        simp only [hget] at h ⊢
        cases hgs : getGameState s.redis (lower gamePin) with
        | none => simp only [hgs] at h; exact Bool.noConfusion h
        | some gameState =>
          simp only [hgs] at h ⊢
          simp only [getGameState_store]
          rfl

/-- C6 (amended): the snapshot index of a new session is -1; a successful
NextQuestion sets it to the previous index plus one while questions remain,
and to the question total (with the finish path) when none remain — but
StartQuestion writes its argument unconditionally, so restarting an earlier
question (the start-quiz endpoint always starts question 0) decreases the
index (see the counterexample). -/
theorem question_index_progression_amended :
    (∀ (s : ServiceState) (userID quizID : Nat) (randBytes : List Nat),
        isOk (StartGame s userID quizID randBytes) = true →
        startGameSnapshotIndex (StartGame s userID quizID randBytes) = some (-1))
    ∧ (∀ (s : ServiceState) (gamePin : String) (gs : GameState) (g : Game),
        getGameState s.redis (lower gamePin) = some gs →
        findGameByPin s.db (lower gamePin) = some g →
        ((((questionsOfQuiz s.db g.quizId).length : Int) ≤ gs.currentQuestionIndex + 1 →
          snapshotIndexAfter (NextQuestion s gamePin) (lower gamePin)
            = some ((questionsOfQuiz s.db g.quizId).length : Int))
        ∧ (-1 ≤ gs.currentQuestionIndex →
            gs.currentQuestionIndex + 1 < ((questionsOfQuiz s.db g.quizId).length : Int) →
          snapshotIndexAfter (NextQuestion s gamePin) (lower gamePin)
            = some (gs.currentQuestionIndex + 1))))
    ∧ (∀ (s : ServiceState) (gamePin : String) (i : Int),
        isOk (StartQuestion s gamePin i) = true →
        snapshotIndexAfter (StartQuestion s gamePin i) (lower gamePin) = some i) := by
  refine ⟨startGame_snapshot_index, ?_, startQuestion_snapshot_index⟩
  intro s gamePin gs g hgs hg
  constructor
  · intro hge
    unfold NextQuestion
    simp only [hgs, hg]
    rw [if_pos hge]
    unfold snapshotIndexAfter
    simp only [getGameState_store]
    rfl
  · intro hm1 hlt
    unfold NextQuestion
    simp only [hgs, hg]
    rw [if_neg (by omega)]
    unfold StartQuestion
    simp only [lower_idem, hg]
    rw [if_neg (by omega)]
    cases hget : (questionsOfQuiz s.db g.quizId).get? (gs.currentQuestionIndex + 1).toNat with
    | none =>
      exfalso
      have hlen := List.get?_eq_none.mp hget
      omega
    | some question =>
      simp only [hget, hgs]
      unfold snapshotIndexAfter
      simp only [getGameState_store]
      rfl

/-- C6, witness: creating a session stores index -1; advancing the concrete
session from index 0 yields index 1; advancing from index 2 of 3 finishes at
index 3; starting question 1 directly stores index 1. -/
theorem question_index_progression_amended_witness :
    (isOk (StartGame stateA 7 1 [0, 0, 1]) = true
      ∧ startGameSnapshotIndex (StartGame stateA 7 1 [0, 0, 1]) = some (-1))
    ∧ snapshotIndexAfter (NextQuestion stateA "abc123") (lower "abc123") = some 1
    ∧ snapshotIndexAfter (NextQuestion stateOnThird "abc123") (lower "abc123") = some 3
    ∧ (isOk (StartQuestion stateA "abc123" 1) = true
      ∧ snapshotIndexAfter (StartQuestion stateA "abc123" 1) (lower "abc123") = some 1) :=
  ⟨⟨by decide, question_index_progression_amended.1 stateA 7 1 [0, 0, 1] (by decide)⟩,
   (question_index_progression_amended.2.1 stateA "abc123" snapA gameA
      (by decide) (by decide)).2 (by decide) (by decide),
   (question_index_progression_amended.2.1 stateOnThird "abc123"
      { snapA with currentQuestionIndex := 2 } gameA (by decide) (by decide)).1 (by decide),
   ⟨by decide, question_index_progression_amended.2.2 stateA "abc123" 1 (by decide)⟩⟩

/-- C7: the host (sentinel player id 0) of the concrete live session
unregisters while alice stays connected.  The session record is set to
"finished" first, and the branch constructs the one creator-disconnected
game_end — but it invokes BroadcastToGame while Hub.Run still holds the
write lock, so the broadcast's RLock self-deadlocks: nothing is delivered to
the remaining connections and the hub makes no further progress, contrary to
the claimed (and spec-required) delivery of exactly one game_end. -/
theorem host_disconnect_broadcast_deadlocks :
    (findGameByPin (hubUnregister stateA [hostClient, aliceClient] hostClient).state.db
        (lower hostClient.gamePin)).map (fun x => x.status) = some "finished"
    ∧ (hubUnregister stateA [hostClient, aliceClient] hostClient).attempted
        = [Event.gameEnd hostClient.gamePin
            "Quiz creator has left the game. The quiz has ended."
            (some "creator_disconnected") none none]
    ∧ (hubUnregister stateA [hostClient, aliceClient] hostClient).delivered = []
    ∧ (hubUnregister stateA [hostClient, aliceClient] hostClient).blocked = true := by
  decide

/-- C9: with the same games table, question table and cache, two databases
whose option tables agree except possibly on every isCorrect flag drive
StartQuestion to identical broadcasts and identical stored snapshots — the
question_start payload and the cached current question carry only option ids
and texts and are independent of which option is correct. -/
theorem questionStart_independent_of_correctness
    (db1 db2 : DB) (redis : List (String × GameState)) (gamePin : String) (i : Int)
    (hgames : db1.games = db2.games) (hquestions : db1.questions = db2.questions)
    (hopts : List.Forall₂ sameExceptCorrect db1.options db2.options) :
    broadcastEvents (StartQuestion { db := db1, redis := redis } gamePin i)
      = broadcastEvents (StartQuestion { db := db2, redis := redis } gamePin i)
    ∧ snapshotAfter (StartQuestion { db := db1, redis := redis } gamePin i) (lower gamePin)
      = snapshotAfter (StartQuestion { db := db2, redis := redis } gamePin i)
          (lower gamePin) := by
  have hfg : findGameByPin db1 (lower gamePin) = findGameByPin db2 (lower gamePin) := by
    unfold findGameByPin; rw [hgames]
  have hq : ∀ qid, questionsOfQuiz db1 qid = questionsOfQuiz db2 qid := by
    intro qid; unfold questionsOfQuiz; rw [hquestions]
  have hopt : ∀ qid, (optionsOfQuestion db1 qid).map toGameOption
      = (optionsOfQuestion db2 qid).map toGameOption :=
    fun qid => filter_map_game_options hopts qid
  unfold StartQuestion
  simp only [hfg, hq]
  cases hg : findGameByPin db2 (lower gamePin) with
  | none => exact ⟨rfl, rfl⟩
  | some game =>
    simp only []
    by_cases hb : i < 0 ∨ ((questionsOfQuiz db2 game.quizId).length : Int) ≤ i
    · rw [if_pos hb, if_pos hb]
      exact ⟨rfl, rfl⟩
    · rw [if_neg hb, if_neg hb]
      cases hget : (questionsOfQuiz db2 game.quizId).get? i.toNat with
      | none => exact ⟨rfl, rfl⟩
      | some question =>
        cases hgs : getGameState redis (lower gamePin) with
        | none => exact ⟨rfl, rfl⟩
        | some gameState =>
          constructor
          · unfold broadcastEvents
            simp only [hopt]
          · unfold snapshotAfter
            simp only [getGameState_store, hopt]

/-- C9, witness: the concrete session and its flag-flipped twin produce the
same question_start broadcast and the same stored snapshot for question 0. -/
theorem questionStart_independent_of_correctness_witness :
    broadcastEvents (StartQuestion { db := dbA, redis := [("game:abc123", snapA)] }
        "abc123" 0)
      = broadcastEvents (StartQuestion { db := dbFlipped, redis := [("game:abc123", snapA)] }
        "abc123" 0)
    ∧ snapshotAfter (StartQuestion { db := dbA, redis := [("game:abc123", snapA)] }
        "abc123" 0) (lower "abc123")
      = snapshotAfter (StartQuestion { db := dbFlipped, redis := [("game:abc123", snapA)] }
        "abc123" 0) (lower "abc123") :=
  questionStart_independent_of_correctness dbA dbFlipped [("game:abc123", snapA)]
    "abc123" 0 (by decide) (by decide)
    (List.Forall₂.cons ⟨rfl, rfl, rfl, rfl⟩
      (List.Forall₂.cons ⟨rfl, rfl, rfl, rfl⟩
        (List.Forall₂.cons ⟨rfl, rfl, rfl, rfl⟩
          (List.Forall₂.cons ⟨rfl, rfl, rfl, rfl⟩
            (List.Forall₂.cons ⟨rfl, rfl, rfl, rfl⟩
              (List.Forall₂.cons ⟨rfl, rfl, rfl, rfl⟩ List.Forall₂.nil))))))

/-- C10: for an existing session, JoinGame succeeds exactly when the status
is "waiting" or "active" and the display name is free within the game; on
success the created participant has score 0 and the requested name and is
appended to the snapshot's player list (an empty list when no snapshot was
cached); on a finished session the call fails. -/
theorem joinGame_characterization (s : ServiceState) (pin name : String) (g : Game)
    (hfind : findGameByPin s.db (lower pin) = some g) :
    (isOk (JoinGame s pin name) = true ↔
      ((g.status = "waiting" ∨ g.status = "active")
        ∧ (s.db.players.any fun p => p.gameId == g.id && p.name == name) = false))
    ∧ (isOk (JoinGame s pin name) = true →
        (okPlayer (JoinGame s pin name)).map (fun p => (p.score, p.name)) = some (0, name)
        ∧ (getGameState (okState s (JoinGame s pin name)).redis (lower g.pin)).map
            (fun gs => gs.players)
          = some ((((getGameState s.redis (lower g.pin)).map (fun gs => gs.players)).getD [])
              ++ [toGamePlayer { id := freshId (s.db.players.map (fun p => p.id)),
                                 gameId := g.id, name := name, score := 0 }]))
    ∧ (g.status = "finished" → JoinGame s pin name = .error (.cannotJoin "finished")) := by
  unfold JoinGame
  simp only [hfind]
  by_cases hst : (g.status != "waiting" && g.status != "active") = true
  · have hnor : ¬(g.status = "waiting" ∨ g.status = "active") := by
      rcases Bool.and_eq_true .. |>.mp hst with ⟨h1, h2⟩
      rintro (h | h)
      · exact bne_iff_ne.mp h1 h
      · exact bne_iff_ne.mp h2 h
    rw [if_pos hst]
    refine ⟨?_, ?_, ?_⟩
    · simp only [isOk]
      constructor
      · intro h; exact Bool.noConfusion h
      · rintro ⟨h, _⟩; exact absurd h hnor
    · intro h; exact Bool.noConfusion h
    · intro hfin; rw [hfin]
  · have hor : g.status = "waiting" ∨ g.status = "active" := by
      by_contra hno
      push_neg at hno
      exact hst (by simp [bne_iff_ne, hno.1, hno.2])
    have hnotfin : g.status ≠ "finished" := by
      rcases hor with h | h <;> rw [h] <;> decide
    rw [if_neg hst]
    by_cases htaken : (s.db.players.any fun p => p.gameId == g.id && p.name == name) = true
    · rw [if_pos htaken]
      refine ⟨?_, ?_, ?_⟩
      · simp only [isOk]
        constructor
        · intro h; exact Bool.noConfusion h
        · rintro ⟨_, h⟩; rw [htaken] at h; exact Bool.noConfusion h
      · intro h; exact Bool.noConfusion h
      · intro hfin; exact absurd hfin hnotfin
    · rw [if_neg htaken]
      refine ⟨?_, ?_, ?_⟩
      · simp only [isOk]
        constructor
        · intro _
          exact ⟨hor, Bool.not_eq_true _ |>.mp htaken⟩
        · intro _; trivial
      · intro _
        constructor
        · rfl
        · cases hgs : getGameState s.redis (lower g.pin) with
          | none =>
            simp only [hgs, okState, getGameState_store]
            rfl
          | some gs0 =>
            simp only [hgs, okState, getGameState_store]
            rfl
      · intro hfin; exact absurd hfin hnotfin

/-- C10, witness: bob joins the concrete active session (score 0, appended
to the snapshot), while joining the finished variant fails. -/
theorem joinGame_characterization_witness :
    isOk (JoinGame stateA "abc123" "bob") = true
    ∧ (okPlayer (JoinGame stateA "abc123" "bob")).map (fun p => (p.score, p.name))
        = some (0, "bob")
    ∧ JoinGame stateFinished "abc123" "bob" = .error (.cannotJoin "finished") :=
  ⟨(joinGame_characterization stateA "abc123" "bob" gameA (by decide)).1.mpr (by decide),
   ((joinGame_characterization stateA "abc123" "bob" gameA (by decide)).2.1 (by decide)).1,
   (joinGame_characterization stateFinished "abc123" "bob"
     { gameA with status := "finished" } (by decide)).2.2 (by decide)⟩

end OpenQuiz
